import Mathlib

/-!
Shallow embedding of `src/src/robot/vpROSRobot.cpp` (visp_ros).

Real-valued quantities of the robot state are modelled over `ℚ`; ROS
timestamps are `(sec, nsec)` pairs of naturals (uint32 in the wire format).
The busy-wait flag `odom_mutex` is modelled explicitly: every guarded
operation checks the flag at entry; if the flag is `false` the spin loop
`while(!odom_mutex);` never terminates in a sequential execution, which the
embedding renders as `Option.none`.
-/

/-- A 3-component point, mirroring `geometry_msgs` x/y/z triples and
ViSP's `vpTranslationVector`. -/
structure Point where
  x : ℚ
  y : ℚ
  z : ℚ

/-- A quaternion x/y/z/w, mirroring `geometry_msgs/Quaternion` and ViSP's
`vpQuaternionVector`. -/
structure Quat where
  x : ℚ
  y : ℚ
  z : ℚ
  w : ℚ

/-- `struct timespec` as used by the timestamped `getDisplacement`
overload (values stored into it come from the uint32 fields `_sec`,
`_nsec`). -/
structure Timespec where
  tv_sec : Nat
  tv_nsec : Nat

/-- One `nav_msgs/Odometry` message, with the fields `odomCallback`
reads: `header.stamp.{sec,nsec}`, `pose.pose.position`,
`pose.pose.orientation`, `twist.twist.linear`, `twist.twist.angular`. -/
structure Odometry where
  stamp_sec : Nat
  stamp_nsec : Nat
  position : Point
  orientation : Quat
  linear : Point
  angular : Point

/-- 6-component column vector (`vpColVector` of size 6). -/
abbrev Vec6 := Fin 6 → ℚ

/-- The twist of an odometry message as a 6-vector, in the component
order used by `odomCallback` (linear x/y/z then angular x/y/z). -/
def twist6 (m : Odometry) : Vec6 :=
  ![m.linear.x, m.linear.y, m.linear.z, m.angular.x, m.angular.y, m.angular.z]

/-- ViSP control frames (`vpRobot::vpControlFrameType`); the source
implements only `REFERENCE_FRAME`. -/
inductive vpControlFrameType where
  | REFERENCE_FRAME
  | ARTICULAR_FRAME
  | CAMERA_FRAME
  | MIXT_FRAME
deriving DecidableEq, Repr

/-- The two `vpRobotException` codes thrown by the source:
`wrongStateError` (unsupported control frame) and `constructionError`
(ROS already initialised with a different master URI). -/
inductive vpRobotException where
  | wrongStateError
  | constructionError
deriving DecidableEq, Repr

/-- The member state of a `vpROSRobot` object (constructor at lines
78-93 of the source).  `odom_mutex = true` means the guard flag is free.
`advertised`/`subscribed` record whether `init(argc,argv)` has created
the `cmdvel` publisher and the `odom` subscription. -/
structure vpROSRobot where
  isInitialized : Bool
  odom_mutex : Bool
  q : Quat
  p : Point
  _sec : Nat
  _nsec : Nat
  displacement : Vec6
  pose_prev : Vec6
  _master_uri : String
  _topic_cmd : String
  _topic_odom : String
  _nodespace : String
  advertised : Bool
  subscribed : Bool

/-- The constructor `vpROSRobot::vpROSRobot()` (lines 78-93):
`isInitialized(false)`, `odom_mutex(true)`, `q(0,0,0,1)`, `p(0,0,0)`,
`_sec(0)`, `_nsec(0)`, `displacement(6)` and `pose_prev(6)` zero-filled,
default master URI and topic names. -/
def vpROSRobot.construct : vpROSRobot where
  isInitialized := false
  odom_mutex := true
  q := ⟨0, 0, 0, 1⟩
  p := ⟨0, 0, 0⟩
  _sec := 0
  _nsec := 0
  displacement := 0
  pose_prev := 0
  _master_uri := "http://127.0.0.1:11311"
  _topic_cmd := "cmd_vel"
  _topic_odom := "odom"
  _nodespace := ""
  advertised := false
  subscribed := false

/-- `vpROSRobot::odomCallback` (lines 258-276).  Spin-acquires the flag,
overwrites `p` and `q` with the message pose, and when the stored stamp
is not the `(0,0)` sentinel adds `twist[i] * dt` to each displacement
component, with `dt = (stamp.sec - _sec) + (stamp.nsec - _nsec)/1e9`;
finally stores the message stamp and releases the flag.  `none` models
the spin loop never terminating because the flag was left held. -/
def odomCallback (s : vpROSRobot) (msg : Odometry) : Option vpROSRobot :=
  if s.odom_mutex then
    let s1 := { s with odom_mutex := false, p := msg.position, q := msg.orientation }
    let s2 :=
      if s1._sec ≠ 0 ∨ s1._nsec ≠ 0 then
        let dt : ℚ := ((msg.stamp_sec : ℚ) - (s1._sec : ℚ)) +
          ((msg.stamp_nsec : ℚ) - (s1._nsec : ℚ)) / 1000000000
        { s1 with displacement := fun i => s1.displacement i + twist6 msg i * dt }
      else s1
    some { s2 with _sec := msg.stamp_sec, _nsec := msg.stamp_nsec, odom_mutex := true }
  else none

/-- Deliver a list of odometry samples to `odomCallback` in order. -/
def runSamples (s : vpROSRobot) : List Odometry → Option vpROSRobot
  | [] => some s
  | msg :: rest =>
    match odomCallback s msg with
    | some s1 => runSamples s1 rest
    | none => none

/-- `vpROSRobot::getPosition` (lines 188-209), parametrised by the
supplied pure rotation-to-Euler conversion `conv` (the
`vpRotationMatrix`/`vpRxyzVector` chain of lines 197-198).  Spin-acquires
the flag; in `REFERENCE_FRAME` builds the 6-vector pose and releases the
flag (line 208); for any other frame it throws `wrongStateError` at line
205 before the release runs, so the returned state still holds the flag. -/
def getPosition (conv : Quat → Point) (s : vpROSRobot) (frame : vpControlFrameType) :
    Option (Except vpRobotException Vec6 × vpROSRobot) :=
  if s.odom_mutex then
    let s1 := { s with odom_mutex := false }
    if frame = vpControlFrameType.REFERENCE_FRAME then
      let V := conv s1.q
      some (Except.ok ![s1.p.x, s1.p.y, s1.p.z, V.x, V.y, V.z],
        { s1 with odom_mutex := true })
    else
      some (Except.error vpRobotException.wrongStateError, s1)
  else none

/-- `vpROSRobot::getDisplacement` with timestamp (lines 224-240).
Spin-acquires the flag, snapshots `displacement` into `pose_cur`, writes
the caller's `timestamp` out-parameter from `_sec`/`_nsec`, releases the
flag, and only then checks the frame: in `REFERENCE_FRAME` it sets
`dis = pose_cur - pose_prev` and rebases `pose_prev := pose_cur`;
otherwise it throws `wrongStateError`, leaving `dis` untouched but with
`timestamp` already overwritten.  The returned `Vec6 × Timespec` are the
out-parameters' values after the call, including on the error path. -/
def getDisplacement_t (s : vpROSRobot) (frame : vpControlFrameType)
    (dis : Vec6) (timestamp : Timespec) :
    Option (Except vpRobotException Unit × Vec6 × Timespec × vpROSRobot) :=
  if s.odom_mutex then
    let s1 := { s with odom_mutex := false }
    let pose_cur : Vec6 := s1.displacement
    let ts1 : Timespec := ⟨s1._sec, s1._nsec⟩
    let s2 := { s1 with odom_mutex := true }
    if frame = vpControlFrameType.REFERENCE_FRAME then
      some (Except.ok (), fun i => pose_cur i - s2.pose_prev i, ts1,
        { s2 with pose_prev := pose_cur })
    else
      some (Except.error vpRobotException.wrongStateError, dis, ts1, s2)
  else none

/-- The timestamp-less `getDisplacement` overload (lines 252-255): calls
the timestamped overload with a local `timespec` and discards it. -/
def getDisplacement (s : vpROSRobot) (frame : vpControlFrameType) (dis : Vec6) :
    Option (Except vpRobotException Unit × Vec6 × vpROSRobot) :=
  (getDisplacement_t s frame dis ⟨0, 0⟩).map fun r => (r.1, r.2.1, r.2.2.2)

/-- A `geometry_msgs/Twist` outbound command message. -/
structure Twist where
  linear : Point
  angular : Point

/-- `vpROSRobot::setVelocity` (lines 157-175).  In `REFERENCE_FRAME`
publishes the command built from `vel` and leaves the member state
untouched; any other frame throws `wrongStateError` with no state
interaction.  The `Twist` component is the published message. -/
def setVelocity (s : vpROSRobot) (frame : vpControlFrameType) (vel : Vec6) :
    Except vpRobotException Twist × vpROSRobot :=
  if frame = vpControlFrameType.REFERENCE_FRAME then
    (Except.ok ⟨⟨vel 0, vel 1, vel 2⟩, ⟨vel 3, vel 4, vel 5⟩⟩, s)
  else
    (Except.error vpRobotException.wrongStateError, s)

/-- The process-global ROS runtime as the source observes it:
`ros::isInitialized()` and `ros::master::getURI()`. -/
structure RosEnv where
  rosInitialized : Bool
  masterURI : String

/-- `vpROSRobot::init(int argc, char **argv)` (lines 113-124): when the
adapter is uninitialized, initialises ROS if needed, creates the
`cmdvel` publisher and the `odom` subscription, starts the spinner and
sets `isInitialized`; otherwise a no-op. -/
def init_args (env : RosEnv) (s : vpROSRobot) : RosEnv × vpROSRobot :=
  if s.isInitialized then (env, s)
  else
    ({ env with rosInitialized := true },
     { s with advertised := true, subscribed := true, isInitialized := true })

/-- The parameterless `vpROSRobot::init()` (lines 130-144): throws
`constructionError` when ROS is already initialised against a different
master URI; otherwise, when the adapter is uninitialized, forwards to
`init(argc, argv)` with a synthesised argument vector.  The `RosEnv` and
`vpROSRobot` components are the post-call states, also on the error
path (the throw happens before any state is touched). -/
def init_noargs (env : RosEnv) (s : vpROSRobot) :
    Except vpRobotException Unit × RosEnv × vpROSRobot :=
  if env.rosInitialized ∧ env.masterURI ≠ s._master_uri then
    (Except.error vpRobotException.constructionError, env, s)
  else if s.isInitialized then (Except.ok (), env, s)
  else (Except.ok (), init_args env s)

/-- A `(sec, nsec)` stamp as a rational number of seconds. -/
def stampQ (sec nsec : Nat) : ℚ := (sec : ℚ) + (nsec : ℚ) / 1000000000

/-- The spec's displacement sum: given the previous sample time `t`,
each sample contributes `velocity[i] * (time_k - time_{k-1})`
componentwise. -/
def dispSum : ℚ → List Odometry → Vec6
  | _, [] => 0
  | t, m :: rest =>
    (fun i => twist6 m i * (stampQ m.stamp_sec m.stamp_nsec - t)) +
      dispSum (stampQ m.stamp_sec m.stamp_nsec) rest

/-- Sample stamps strictly increase, starting strictly after time `t`. -/
def stampsIncreasingFrom : ℚ → List Odometry → Prop
  | _, [] => True
  | t, m :: rest =>
    t < stampQ m.stamp_sec m.stamp_nsec ∧
      stampsIncreasingFrom (stampQ m.stamp_sec m.stamp_nsec) rest

/-- The five State Record fields of the spec's data model, as a tuple:
position, orientation, lastSampleTime, displacementAccumulator,
displacementBaseline. -/
def stateRecord (s : vpROSRobot) : Point × Quat × (Nat × Nat) × Vec6 × Vec6 :=
  (s.p, s.q, (s._sec, s._nsec), s.displacement, s.pose_prev)

/-- The State Record fields named by the spec's data model. -/
inductive RecField where
  | position
  | orientation
  | lastSampleTime
  | displacementAccumulator
  | displacementBaseline
deriving DecidableEq, Repr

/-- Atomic guard/record events, in program order, of one operation. -/
inductive Event where
  | acquire
  | release
  | read (f : RecField)
  | write (f : RecField)
deriving DecidableEq, Repr

/-- Event trace of `odomCallback` (lines 258-276): acquire (259-260),
write `p` (261), write `q` (262), read the stored stamp in the sentinel
test (264); when accumulating, read the stamp and the accumulator and
write the accumulator (265-271); write the stamp (273-274), release
(275). -/
def odomCallbackEvents (accumulating : Bool) : List Event :=
  [Event.acquire, Event.write RecField.position, Event.write RecField.orientation,
    Event.read RecField.lastSampleTime] ++
  (if accumulating then
    [Event.read RecField.lastSampleTime, Event.read RecField.displacementAccumulator,
      Event.write RecField.displacementAccumulator]
   else []) ++
  [Event.write RecField.lastSampleTime, Event.release]

/-- Event trace of `getPosition` (lines 188-209): acquire (189-190);
with the supported frame, read `p` (194-196) and `q` (197) then release
(208); with an unsupported frame the throw at line 205 exits before the
release at line 208 runs. -/
def getPositionEvents (supported : Bool) : List Event :=
  if supported then
    [Event.acquire, Event.read RecField.position, Event.read RecField.orientation,
      Event.release]
  else
    [Event.acquire]

/-- Event trace of the timestamped `getDisplacement` (lines 224-240):
acquire (225-226), read the accumulator (227), read the stamp (228-229),
release (230); then, with the supported frame, read and write
`pose_prev` (232-233) after the release. -/
def getDisplacementEvents (supported : Bool) : List Event :=
  [Event.acquire, Event.read RecField.displacementAccumulator,
    Event.read RecField.lastSampleTime, Event.release] ++
  (if supported then
    [Event.read RecField.displacementBaseline, Event.write RecField.displacementBaseline]
   else [])

/-- Scan a trace with the current guard-held flag; `true` iff every
record access happens while the guard is held. -/
def accessesGuardedFrom : Bool → List Event → Bool
  | _, [] => true
  | _, Event.acquire :: rest => accessesGuardedFrom true rest
  | _, Event.release :: rest => accessesGuardedFrom false rest
  | held, Event.read _ :: rest => held && accessesGuardedFrom held rest
  | held, Event.write _ :: rest => held && accessesGuardedFrom held rest

/-- Every record access of the trace happens under the guard. -/
def accessesGuarded (t : List Event) : Bool := accessesGuardedFrom false t

/-- The record fields a trace accesses while the guard is not held. -/
def unguardedAccesses : Bool → List Event → List RecField
  | _, [] => []
  | _, Event.acquire :: rest => unguardedAccesses true rest
  | _, Event.release :: rest => unguardedAccesses false rest
  | held, Event.read f :: rest =>
    (if held then [] else [f]) ++ unguardedAccesses held rest
  | held, Event.write f :: rest =>
    (if held then [] else [f]) ++ unguardedAccesses held rest

/-- The guard-held flag after running a trace from the released state:
`true` iff the operation exits with the guard still held. -/
def endsHeld (t : List Event) : Bool :=
  t.foldl (fun held e =>
    match e with
    | Event.acquire => true
    | Event.release => false
    | _ => held) false

/-- Concrete odometry message with a given stamp and twist, zero pose
and identity orientation. -/
def mkOdom (sec nsec : Nat) (v : Vec6) : Odometry :=
  ⟨sec, nsec, ⟨0, 0, 0⟩, ⟨0, 0, 0, 1⟩, ⟨v 0, v 1, v 2⟩, ⟨v 3, v 4, v 5⟩⟩

/-- The spec example's samples: t=0 with zero twist, t=1s with twist
`[1,0,0,0,0,0]`, t=2s with twist `[0,0,0,0,0,1]`. -/
def sample_t0 : Odometry := mkOdom 0 0 0

/-- Sample at t=1s with twist `[1,0,0,0,0,0]`. -/
def sample_t1 : Odometry := mkOdom 1 0 ![1, 0, 0, 0, 0, 0]

/-- Sample at t=2s with twist `[0,0,0,0,0,1]`. -/
def sample_t2 : Odometry := mkOdom 2 0 ![0, 0, 0, 0, 0, 1]

/-- The identically-zero rotation-to-Euler conversion, used to
instantiate the supplied pure conversion function in witnesses. -/
def convZero : Quat → Point := fun _ => ⟨0, 0, 0⟩

/-- The constructed state after one consuming displacement read:
guard free, baseline rebased to the accumulator. -/
def rebasedConstruct : vpROSRobot :=
  { vpROSRobot.construct with
    odom_mutex := true
    pose_prev := vpROSRobot.construct.displacement }

/-- The ROS runtime already bound to a different master endpoint, used
as the witness environment. -/
def otherMasterEnv : RosEnv := ⟨true, "http://10.0.0.1:11311"⟩

/-- The out-of-order witness state: last stored sample time is 2s. -/
def staleState : vpROSRobot := { vpROSRobot.construct with _sec := 2 }

/-- The witness state for C10: last sample time (5s, 7ns). -/
def timedState : vpROSRobot := { vpROSRobot.construct with _sec := 5, _nsec := 7 }

/-- A `(sec, nsec)` stamp is a positive rational exactly when it is not
the `(0,0)` sentinel the integrator tests for. -/
theorem stampQ_pos_iff (sec nsec : Nat) : 0 < stampQ sec nsec ↔ (sec ≠ 0 ∨ nsec ≠ 0) := by
  unfold stampQ
  constructor
  · intro h
    by_contra hc
    push_neg at hc
    obtain ⟨h1, h2⟩ := hc
    subst h1
    subst h2
    norm_num at h
  · intro h
    rcases h with h | h
    · have h1 : (1 : ℚ) ≤ (sec : ℚ) := by exact_mod_cast Nat.one_le_iff_ne_zero.mpr h
      have h2 : (0 : ℚ) ≤ (nsec : ℚ) / 1000000000 := by positivity
      linarith
    · have h1 : (0 : ℚ) ≤ (sec : ℚ) := by positivity
      have h2 : (0 : ℚ) < (nsec : ℚ) / 1000000000 := by
        have hn : (0 : ℚ) < (nsec : ℚ) := by exact_mod_cast Nat.pos_of_ne_zero h
        positivity
      linarith

/-- The callback's `dt` expression equals the difference of the two
stamps read as rational seconds. -/
theorem dtQ_eq (sec1 nsec1 sec2 nsec2 : Nat) :
    ((sec2 : ℚ) - (sec1 : ℚ)) + ((nsec2 : ℚ) - (nsec1 : ℚ)) / 1000000000
      = stampQ sec2 nsec2 - stampQ sec1 nsec1 := by
  unfold stampQ
  ring

/-- One accumulating step of `odomCallback`, fully evaluated. -/
theorem odomCallback_accum (s : vpROSRobot) (m : Odometry)
    (hm : s.odom_mutex = true) (hs : s._sec ≠ 0 ∨ s._nsec ≠ 0) :
    odomCallback s m = some { s with
      odom_mutex := true, p := m.position, q := m.orientation,
      displacement := fun i => s.displacement i + twist6 m i *
        (((m.stamp_sec : ℚ) - (s._sec : ℚ)) +
          ((m.stamp_nsec : ℚ) - (s._nsec : ℚ)) / 1000000000),
      _sec := m.stamp_sec, _nsec := m.stamp_nsec } := by
  simp [odomCallback, hm, hs]

/-- One non-accumulating (first-sample) step of `odomCallback`. -/
theorem odomCallback_skip (s : vpROSRobot) (m : Odometry)
    (hm : s.odom_mutex = true) (hs : ¬(s._sec ≠ 0 ∨ s._nsec ≠ 0)) :
    odomCallback s m = some { s with
      odom_mutex := true, p := m.position, q := m.orientation,
      _sec := m.stamp_sec, _nsec := m.stamp_nsec } := by
  simp [odomCallback, hm, hs]

/-- Running samples from a state whose stored stamp is a positive time,
with strictly increasing sample stamps, accumulates exactly the spec's
componentwise velocity-times-delta sum on top of the current
accumulator. -/
theorem runSamples_displacement (msgs : List Odometry) :
    ∀ s : vpROSRobot, s.odom_mutex = true →
      0 < stampQ s._sec s._nsec →
      stampsIncreasingFrom (stampQ s._sec s._nsec) msgs →
      (runSamples s msgs).map vpROSRobot.displacement
        = some (s.displacement + dispSum (stampQ s._sec s._nsec) msgs) := by
  induction msgs with
  | nil =>
    intro s hm hp hinc
    simp [runSamples, dispSum]
  | cons m rest ih =>
    intro s hm hp hinc
    obtain ⟨hlt, hinc2⟩ := hinc
    have hs : s._sec ≠ 0 ∨ s._nsec ≠ 0 := (stampQ_pos_iff _ _).mp hp
    rw [runSamples, odomCallback_accum s m hm hs]
    rw [ih _ rfl (lt_trans hp hlt) hinc2]
    congr 1
    rw [dtQ_eq, dispSum]
    funext i
    simp only [Pi.add_apply]
    ring

/-- After delivering a nonempty sample sequence ending in `m`, the state
has the guard flag free and holds `m`'s pose (last write wins). -/
theorem runSamples_last (msgs : List Odometry) :
    ∀ (s : vpROSRobot) (m : Odometry) (s2 : vpROSRobot), s.odom_mutex = true →
      runSamples s (msgs ++ [m]) = some s2 →
      s2.odom_mutex = true ∧ s2.p = m.position ∧ s2.q = m.orientation := by
  induction msgs with
  | nil =>
    intro s m s2 hm h
    by_cases hs : s._sec ≠ 0 ∨ s._nsec ≠ 0
    · simp only [List.nil_append, runSamples, odomCallback_accum s m hm hs] at h
      obtain rfl := Option.some_injective _ h
      exact ⟨rfl, rfl, rfl⟩
    · simp only [List.nil_append, runSamples, odomCallback_skip s m hm hs] at h
      obtain rfl := Option.some_injective _ h
      exact ⟨rfl, rfl, rfl⟩
  | cons m0 rest ih =>
    intro s m s2 hm h
    by_cases hs : s._sec ≠ 0 ∨ s._nsec ≠ 0
    · simp only [List.cons_append, runSamples, odomCallback_accum s m0 hm hs] at h
      exact ih _ m s2 rfl h
    · simp only [List.cons_append, runSamples, odomCallback_skip s m0 hm hs] at h
      exact ih _ m s2 rfl h

/-- Claim C1, counterexample: on the claim's own example (samples at t=0,
t=1s, t=2s), the displacement accumulator is `0` after sample 2, not
`[1,0,0,0,0,0]`, and `[0,0,0,0,0,1]` after sample 3, not `[1,0,0,0,0,1]`:
sample 1's `(0,0)` stamp is the sentinel for "no sample yet", so sample 2
also skips accumulation. -/
theorem C1_counterexample :
    (runSamples vpROSRobot.construct [sample_t0, sample_t1]).map vpROSRobot.displacement
      = some 0
    ∧ ((0 : Vec6) ≠ ![1, 0, 0, 0, 0, 0])
    ∧ (runSamples vpROSRobot.construct [sample_t0, sample_t1, sample_t2]).map
        vpROSRobot.displacement = some ![0, 0, 0, 0, 0, 1]
    ∧ (![0, 0, 0, 0, 0, 1] : Vec6) ≠ ![1, 0, 0, 0, 0, 1] := by
  refine ⟨by decide, by decide, ?_, by decide⟩
  norm_num [runSamples, odomCallback, vpROSRobot.construct, sample_t0, sample_t1,
    sample_t2, mkOdom, twist6]
  funext i
  fin_cases i <;> (try norm_num) <;> decide

/-- Claim C1, amended: for every sample sequence with strictly increasing
timestamps whose FIRST timestamp is not the `(0,0)` sentinel, the
displacement accumulator after the N-th sample equals the sum over
samples 2..N of `velocity_k[i] * (time_k - time_{k-1})` componentwise,
with sample 1 contributing zero. -/
theorem C1_amended (m : Odometry) (rest : List Odometry)
    (h1 : 0 < stampQ m.stamp_sec m.stamp_nsec)
    (h2 : stampsIncreasingFrom (stampQ m.stamp_sec m.stamp_nsec) rest) :
    (runSamples vpROSRobot.construct (m :: rest)).map vpROSRobot.displacement
      = some (dispSum (stampQ m.stamp_sec m.stamp_nsec) rest) := by
  have hskip : ¬(vpROSRobot.construct._sec ≠ 0 ∨ vpROSRobot.construct._nsec ≠ 0) := by
    simp [vpROSRobot.construct]
  simp only [runSamples, odomCallback_skip vpROSRobot.construct m rfl hskip]
  rw [runSamples_displacement rest _ rfl h1 h2]
  simp [vpROSRobot.construct]

/-- Witness for `C1_amended` at samples t=1s and t=2s. -/
theorem C1_amended_witness :
    0 < stampQ sample_t1.stamp_sec sample_t1.stamp_nsec
    ∧ stampsIncreasingFrom (stampQ sample_t1.stamp_sec sample_t1.stamp_nsec) [sample_t2]
    ∧ (runSamples vpROSRobot.construct [sample_t1, sample_t2]).map vpROSRobot.displacement
        = some (dispSum (stampQ sample_t1.stamp_sec sample_t1.stamp_nsec) [sample_t2]) :=
  ⟨by norm_num [stampQ, sample_t1, mkOdom],
   ⟨by norm_num [stampQ, sample_t1, sample_t2, mkOdom], trivial⟩,
   C1_amended sample_t1 [sample_t2] (by norm_num [stampQ, sample_t1, mkOdom])
     ⟨by norm_num [stampQ, sample_t1, sample_t2, mkOdom], trivial⟩⟩

/-- Claim C2, counterexample: `getPosition` called with an unsupported
frame throws at line 205 before the release at line 208 runs, leaving
`odom_mutex = false`; every subsequent guarded operation
(`odomCallback`, `getPosition`, `getDisplacement`) then spins forever on
the flag (modelled as `none`), and the trace of the failing path ends
with the guard still held — so the Guard is NOT released on every exit
path. -/
theorem C2_guard_leak :
    getPosition convZero vpROSRobot.construct vpControlFrameType.ARTICULAR_FRAME
      = some (Except.error vpRobotException.wrongStateError,
          { vpROSRobot.construct with odom_mutex := false })
    ∧ odomCallback { vpROSRobot.construct with odom_mutex := false } sample_t1 = none
    ∧ getPosition convZero { vpROSRobot.construct with odom_mutex := false }
        vpControlFrameType.REFERENCE_FRAME = none
    ∧ getDisplacement_t { vpROSRobot.construct with odom_mutex := false }
        vpControlFrameType.REFERENCE_FRAME 0 ⟨0, 0⟩ = none
    ∧ endsHeld (getPositionEvents false) = true
    ∧ endsHeld (getPositionEvents true) = false := by
  exact ⟨rfl, rfl, rfl, rfl, rfl, rfl⟩

/-- Claim C2, amended: the Guard is released on every exit path of
`odomCallback` and of `getDisplacement` (supported or unsupported
frame, whose release at line 230 precedes its frame check), and on
`getPosition`'s supported path; but `getPosition` with an unsupported
frame propagates its error with the Guard still held (the throw at line
205 skips the release at line 208), after which the very next guarded
operation blocks forever. -/
theorem C2_amended (s : vpROSRobot) (frame : vpControlFrameType) (conv : Quat → Point)
    (msg : Odometry) (dis : Vec6) (ts : Timespec) (hm : s.odom_mutex = true) :
    (odomCallback s msg).map (fun s1 => s1.odom_mutex) = some true
    ∧ (getDisplacement_t s frame dis ts).map (fun r => r.2.2.2.odom_mutex) = some true
    ∧ (getPosition conv s vpControlFrameType.REFERENCE_FRAME).map
        (fun r => r.2.odom_mutex) = some true
    ∧ (frame ≠ vpControlFrameType.REFERENCE_FRAME →
        (getPosition conv s frame).map
          (fun r => (r.2.odom_mutex, odomCallback r.2 msg)) = some (false, none))
    ∧ endsHeld (odomCallbackEvents true) = false
    ∧ endsHeld (odomCallbackEvents false) = false
    ∧ endsHeld (getDisplacementEvents true) = false
    ∧ endsHeld (getDisplacementEvents false) = false
    ∧ endsHeld (getPositionEvents true) = false
    ∧ endsHeld (getPositionEvents false) = true := by
  refine ⟨?_, ?_, ?_, ?_, rfl, rfl, rfl, rfl, rfl, rfl⟩
  · by_cases hs : s._sec ≠ 0 ∨ s._nsec ≠ 0
    · rw [odomCallback_accum s msg hm hs]
      rfl
    · rw [odomCallback_skip s msg hm hs]
      rfl
  · by_cases hf : frame = vpControlFrameType.REFERENCE_FRAME
    · subst hf
      simp [getDisplacement_t, hm]
    · simp [getDisplacement_t, hm, hf]
  · simp [getPosition, hm]
  · intro hf
    simp [getPosition, hm, hf, odomCallback]

/-- Witness for `C2_amended` on a fresh adapter, `ARTICULAR_FRAME` as
the unsupported frame and the t=1s sample. -/
theorem C2_amended_witness :
    vpROSRobot.construct.odom_mutex = true
    ∧ ((odomCallback vpROSRobot.construct sample_t1).map (fun s1 => s1.odom_mutex) = some true
      ∧ (getDisplacement_t vpROSRobot.construct vpControlFrameType.ARTICULAR_FRAME 0 ⟨0, 0⟩).map
          (fun r => r.2.2.2.odom_mutex) = some true
      ∧ (getPosition convZero vpROSRobot.construct vpControlFrameType.REFERENCE_FRAME).map
          (fun r => r.2.odom_mutex) = some true
      ∧ (vpControlFrameType.ARTICULAR_FRAME ≠ vpControlFrameType.REFERENCE_FRAME →
          (getPosition convZero vpROSRobot.construct vpControlFrameType.ARTICULAR_FRAME).map
            (fun r => (r.2.odom_mutex, odomCallback r.2 sample_t1)) = some (false, none))
      ∧ endsHeld (odomCallbackEvents true) = false
      ∧ endsHeld (odomCallbackEvents false) = false
      ∧ endsHeld (getDisplacementEvents true) = false
      ∧ endsHeld (getDisplacementEvents false) = false
      ∧ endsHeld (getPositionEvents true) = false
      ∧ endsHeld (getPositionEvents false) = true) :=
  ⟨rfl, C2_amended vpROSRobot.construct vpControlFrameType.ARTICULAR_FRAME convZero
    sample_t1 0 ⟨0, 0⟩ rfl⟩

/-- Claim C3, counterexample: the timestamped `getDisplacement` releases
the guard at line 230 and only then (lines 232-233) reads and writes
`pose_prev` (the displacement baseline), so not every State Record
access happens under the Guard. -/
theorem C3_counterexample :
    accessesGuarded (getDisplacementEvents true) = false
    ∧ unguardedAccesses false (getDisplacementEvents true)
        = [RecField.displacementBaseline, RecField.displacementBaseline] := by
  exact ⟨rfl, rfl⟩

/-- Claim C3, amended: every access to position, orientation,
lastSampleTime and the displacement accumulator is under the Guard
(`odomCallback` and `getPosition` traces are fully guarded, and so is
the guarded prefix of `getDisplacement`), but `getDisplacement` reads
and writes the displacement baseline `pose_prev` after releasing the
Guard — the baseline is the one record field accessed outside the
Guard's protection. -/
theorem C3_amended (b : Bool) :
    accessesGuarded (odomCallbackEvents b) = true
    ∧ accessesGuarded (getPositionEvents b) = true
    ∧ unguardedAccesses false (getDisplacementEvents b)
        = (if b then [RecField.displacementBaseline, RecField.displacementBaseline]
           else [])
    ∧ (unguardedAccesses false (getDisplacementEvents b)).all
        (fun f => f = RecField.displacementBaseline) = true := by
  cases b <;> exact ⟨rfl, rfl, rfl, rfl⟩

/-- Claim C4: `getDisplacement` with the supported frame is a consuming
read: it returns `displacement - pose_prev` and the snapshot timestamp,
rebases `pose_prev := displacement`, and an immediate second call with
no intervening samples returns exactly the zero delta. -/
theorem C4_consuming_read (s : vpROSRobot) (dis dis2 : Vec6) (ts ts2 : Timespec)
    (hm : s.odom_mutex = true) :
    getDisplacement_t s vpControlFrameType.REFERENCE_FRAME dis ts
      = some (Except.ok (), fun i => s.displacement i - s.pose_prev i,
          ⟨s._sec, s._nsec⟩, { s with odom_mutex := true, pose_prev := s.displacement })
    ∧ getDisplacement_t { s with odom_mutex := true, pose_prev := s.displacement }
        vpControlFrameType.REFERENCE_FRAME dis2 ts2
      = some (Except.ok (), 0, ⟨s._sec, s._nsec⟩,
          { s with odom_mutex := true, pose_prev := s.displacement }) := by
  have h0 : (fun i => s.displacement i - s.displacement i) = (0 : Vec6) := by
    funext i
    simp
  constructor
  · simp [getDisplacement_t, hm]
  · simp [getDisplacement_t, h0]
    rfl

/-- Witness for `C4_consuming_read` on a freshly constructed adapter. -/
theorem C4_witness :
    vpROSRobot.construct.odom_mutex = true
    ∧ (getDisplacement_t vpROSRobot.construct vpControlFrameType.REFERENCE_FRAME 0 ⟨0, 0⟩
        = some (Except.ok (),
            fun i => vpROSRobot.construct.displacement i - vpROSRobot.construct.pose_prev i,
            ⟨vpROSRobot.construct._sec, vpROSRobot.construct._nsec⟩, rebasedConstruct)
      ∧ getDisplacement_t rebasedConstruct vpControlFrameType.REFERENCE_FRAME 0 ⟨0, 0⟩
        = some (Except.ok (), 0,
            ⟨vpROSRobot.construct._sec, vpROSRobot.construct._nsec⟩, rebasedConstruct)) :=
  ⟨rfl, C4_consuming_read vpROSRobot.construct 0 0 ⟨0, 0⟩ ⟨0, 0⟩ rfl⟩

/-- Claim C5: with any unsupported frame, `setVelocity`, `getPosition`
and `getDisplacement` each fail with `wrongStateError` and leave every
State Record field (position, orientation, lastSampleTime, accumulator,
baseline) unchanged. -/
theorem C5_unsupported_frame (frame : vpControlFrameType)
    (hf : frame ≠ vpControlFrameType.REFERENCE_FRAME)
    (conv : Quat → Point) (s : vpROSRobot) (vel dis : Vec6) (ts : Timespec)
    (hm : s.odom_mutex = true) :
    setVelocity s frame vel = (Except.error vpRobotException.wrongStateError, s)
    ∧ getPosition conv s frame
        = some (Except.error vpRobotException.wrongStateError, { s with odom_mutex := false })
    ∧ stateRecord { s with odom_mutex := false } = stateRecord s
    ∧ getDisplacement_t s frame dis ts
        = some (Except.error vpRobotException.wrongStateError, dis,
            ⟨s._sec, s._nsec⟩, { s with odom_mutex := true })
    ∧ stateRecord { s with odom_mutex := true } = stateRecord s := by
  refine ⟨?_, ?_, rfl, ?_, rfl⟩
  · simp [setVelocity, hf]
  · simp [getPosition, hm, hf]
  · simp [getDisplacement_t, hm, hf]

/-- Witness for `C5_unsupported_frame` at `ARTICULAR_FRAME` on a fresh
adapter. -/
theorem C5_witness :
    vpControlFrameType.ARTICULAR_FRAME ≠ vpControlFrameType.REFERENCE_FRAME
    ∧ vpROSRobot.construct.odom_mutex = true
    ∧ (setVelocity vpROSRobot.construct vpControlFrameType.ARTICULAR_FRAME 0
        = (Except.error vpRobotException.wrongStateError, vpROSRobot.construct)
      ∧ getPosition convZero vpROSRobot.construct vpControlFrameType.ARTICULAR_FRAME
        = some (Except.error vpRobotException.wrongStateError,
            { vpROSRobot.construct with odom_mutex := false })
      ∧ stateRecord { vpROSRobot.construct with odom_mutex := false }
          = stateRecord vpROSRobot.construct
      ∧ getDisplacement_t vpROSRobot.construct vpControlFrameType.ARTICULAR_FRAME 0 ⟨0, 0⟩
        = some (Except.error vpRobotException.wrongStateError, 0,
            ⟨vpROSRobot.construct._sec, vpROSRobot.construct._nsec⟩,
            { vpROSRobot.construct with odom_mutex := true })
      ∧ stateRecord { vpROSRobot.construct with odom_mutex := true }
          = stateRecord vpROSRobot.construct) :=
  ⟨by decide, rfl,
   C5_unsupported_frame vpControlFrameType.ARTICULAR_FRAME (by decide) convZero
     vpROSRobot.construct 0 0 ⟨0, 0⟩ rfl⟩

/-- Claim C6: after any nonempty sample sequence ending in `m`,
`getPosition` with the supported frame returns exactly `m`'s position in
components 0-2 and the supplied orientation-angle conversion of `m`'s
orientation in components 3-5 (last write wins). -/
theorem C6_last_write_wins (conv : Quat → Point) (msgs : List Odometry) (m : Odometry)
    (s2 : vpROSRobot) (h : runSamples vpROSRobot.construct (msgs ++ [m]) = some s2) :
    getPosition conv s2 vpControlFrameType.REFERENCE_FRAME
      = some (Except.ok ![m.position.x, m.position.y, m.position.z,
          (conv m.orientation).x, (conv m.orientation).y, (conv m.orientation).z],
          { s2 with odom_mutex := true }) := by
  obtain ⟨hm, hp, hq⟩ := runSamples_last msgs vpROSRobot.construct m s2 rfl h
  simp [getPosition, hm, hp, hq]

/-- Witness for `C6_last_write_wins` with the single sample at t=1s. -/
theorem C6_witness :
    runSamples vpROSRobot.construct ([] ++ [sample_t1])
      = some { vpROSRobot.construct with _sec := 1 }
    ∧ getPosition convZero { vpROSRobot.construct with _sec := 1 }
        vpControlFrameType.REFERENCE_FRAME
      = some (Except.ok ![sample_t1.position.x, sample_t1.position.y, sample_t1.position.z,
          (convZero sample_t1.orientation).x, (convZero sample_t1.orientation).y,
          (convZero sample_t1.orientation).z],
          { { vpROSRobot.construct with _sec := 1 } with odom_mutex := true }) :=
  ⟨rfl, C6_last_write_wins convZero [] sample_t1 { vpROSRobot.construct with _sec := 1 } rfl⟩

/-- Claim C7: the parameterless `init()` called while ROS is already
initialised against a different master URI throws `constructionError`
synchronously; the adapter stays uninitialized and no publisher or
subscription is created. -/
theorem C7_configuration_conflict (env : RosEnv) (s : vpROSRobot)
    (h1 : env.rosInitialized = true) (h2 : env.masterURI ≠ s._master_uri)
    (h3 : s.isInitialized = false) (h4 : s.advertised = false) (h5 : s.subscribed = false) :
    init_noargs env s = (Except.error vpRobotException.constructionError, env, s)
    ∧ (init_noargs env s).2.2.isInitialized = false
    ∧ (init_noargs env s).2.2.advertised = false
    ∧ (init_noargs env s).2.2.subscribed = false := by
  have he : init_noargs env s = (Except.error vpRobotException.constructionError, env, s) := by
    simp [init_noargs, h1, h2]
  refine ⟨he, ?_, ?_, ?_⟩ <;> rw [he]
  · exact h3
  · exact h4
  · exact h5

/-- Witness for `C7_configuration_conflict` on a fresh adapter against a
runtime bound to `http://10.0.0.1:11311`. -/
theorem C7_witness :
    otherMasterEnv.rosInitialized = true
    ∧ otherMasterEnv.masterURI ≠ vpROSRobot.construct._master_uri
    ∧ (init_noargs otherMasterEnv vpROSRobot.construct
        = (Except.error vpRobotException.constructionError, otherMasterEnv, vpROSRobot.construct)
      ∧ (init_noargs otherMasterEnv vpROSRobot.construct).2.2.isInitialized = false
      ∧ (init_noargs otherMasterEnv vpROSRobot.construct).2.2.advertised = false
      ∧ (init_noargs otherMasterEnv vpROSRobot.construct).2.2.subscribed = false) :=
  ⟨rfl, by decide,
   C7_configuration_conflict otherMasterEnv vpROSRobot.construct rfl (by decide) rfl rfl rfl⟩

/-- Claim C8: `odomCallback` validates nothing about sample timestamps:
past the first sample it always adds `velocity[i] * dt` with
`dt = (stamp.sec - _sec) + (stamp.nsec - _nsec)/1e9` exactly as
computed, no error is possible, and when the new stamp is earlier than
the stored one `dt` is negative, so the contribution is negative. -/
theorem C8_no_timestamp_validation (s : vpROSRobot) (msg : Odometry)
    (hm : s.odom_mutex = true) (hs : s._sec ≠ 0 ∨ s._nsec ≠ 0) :
    odomCallback s msg = some { s with
      odom_mutex := true, p := msg.position, q := msg.orientation,
      displacement := fun i => s.displacement i + twist6 msg i *
        (((msg.stamp_sec : ℚ) - (s._sec : ℚ)) +
          ((msg.stamp_nsec : ℚ) - (s._nsec : ℚ)) / 1000000000),
      _sec := msg.stamp_sec, _nsec := msg.stamp_nsec }
    ∧ (stampQ msg.stamp_sec msg.stamp_nsec < stampQ s._sec s._nsec →
        ((msg.stamp_sec : ℚ) - (s._sec : ℚ)) +
          ((msg.stamp_nsec : ℚ) - (s._nsec : ℚ)) / 1000000000 < 0) := by
  refine ⟨odomCallback_accum s msg hm hs, ?_⟩
  intro hlt
  rw [dtQ_eq]
  exact sub_neg.mpr hlt

/-- Witness for `C8_no_timestamp_validation`: stored time 2s, incoming
sample stamped 1s — a non-monotonic pair the callback accepts as-is. -/
theorem C8_witness :
    staleState.odom_mutex = true
    ∧ (staleState._sec ≠ 0 ∨ staleState._nsec ≠ 0)
    ∧ (odomCallback staleState sample_t1 = some { staleState with
        odom_mutex := true, p := sample_t1.position, q := sample_t1.orientation,
        displacement := fun i => staleState.displacement i + twist6 sample_t1 i *
          (((sample_t1.stamp_sec : ℚ) - (staleState._sec : ℚ)) +
            ((sample_t1.stamp_nsec : ℚ) - (staleState._nsec : ℚ)) / 1000000000),
        _sec := sample_t1.stamp_sec, _nsec := sample_t1.stamp_nsec }
      ∧ (stampQ sample_t1.stamp_sec sample_t1.stamp_nsec < stampQ staleState._sec staleState._nsec →
          ((sample_t1.stamp_sec : ℚ) - (staleState._sec : ℚ)) +
            ((sample_t1.stamp_nsec : ℚ) - (staleState._nsec : ℚ)) / 1000000000 < 0)) :=
  ⟨rfl, by decide, C8_no_timestamp_validation staleState sample_t1 rfl (by decide)⟩

/-- Claim C9: a sample stamped exactly `(0,0)` re-arms the first-sample
sentinel: after processing it the stored time is `(0,0)`, so the very
next sample also skips accumulation and the accumulator is unchanged. -/
theorem C9_zero_stamp_sentinel (s : vpROSRobot) (msg msg2 : Odometry)
    (hm : s.odom_mutex = true) (h0 : msg.stamp_sec = 0) (h1 : msg.stamp_nsec = 0) :
    ∃ s1, odomCallback s msg = some s1 ∧ s1._sec = 0 ∧ s1._nsec = 0
      ∧ ∃ s2, odomCallback s1 msg2 = some s2 ∧ s2.displacement = s1.displacement := by
  by_cases hs : s._sec ≠ 0 ∨ s._nsec ≠ 0
  · refine ⟨_, odomCallback_accum s msg hm hs, h0, h1,
      _, odomCallback_skip _ msg2 rfl ?_, rfl⟩
    simp [h0, h1]
  · refine ⟨_, odomCallback_skip s msg hm hs, h0, h1,
      _, odomCallback_skip _ msg2 rfl ?_, rfl⟩
    simp [h0, h1]

/-- Witness for `C9_zero_stamp_sentinel`: fresh adapter, a `(0,0)`
sample, then the sample at t=1s. -/
theorem C9_witness :
    vpROSRobot.construct.odom_mutex = true
    ∧ sample_t0.stamp_sec = 0 ∧ sample_t0.stamp_nsec = 0
    ∧ ∃ s1, odomCallback vpROSRobot.construct sample_t0 = some s1
        ∧ s1._sec = 0 ∧ s1._nsec = 0
        ∧ ∃ s2, odomCallback s1 sample_t1 = some s2 ∧ s2.displacement = s1.displacement :=
  ⟨rfl, rfl, rfl, C9_zero_stamp_sentinel vpROSRobot.construct sample_t0 sample_t1 rfl rfl rfl⟩

/-- Claim C10: the timestamped `getDisplacement` writes the caller's
timestamp out-parameter from `_sec`/`_nsec` before the frame check, so
with an unsupported frame the call fails with `wrongStateError` yet the
returned timestamp is the last sample's time, whatever the input
timestamp held. -/
theorem C10_timestamp_before_frame_check (s : vpROSRobot) (frame : vpControlFrameType)
    (dis : Vec6) (ts : Timespec) (hm : s.odom_mutex = true)
    (hf : frame ≠ vpControlFrameType.REFERENCE_FRAME) :
    getDisplacement_t s frame dis ts
      = some (Except.error vpRobotException.wrongStateError, dis,
          ⟨s._sec, s._nsec⟩, { s with odom_mutex := true }) := by
  simp [getDisplacement_t, hm, hf]

/-- Witness for `C10_timestamp_before_frame_check`: unsupported
`CAMERA_FRAME`, input timestamp `(9,9)`, returned timestamp `(5,7)`. -/
theorem C10_witness :
    timedState.odom_mutex = true
    ∧ vpControlFrameType.CAMERA_FRAME ≠ vpControlFrameType.REFERENCE_FRAME
    ∧ getDisplacement_t timedState vpControlFrameType.CAMERA_FRAME 0 ⟨9, 9⟩
      = some (Except.error vpRobotException.wrongStateError, 0,
          ⟨timedState._sec, timedState._nsec⟩, { timedState with odom_mutex := true }) :=
  ⟨rfl, by decide,
   C10_timestamp_before_frame_check timedState vpControlFrameType.CAMERA_FRAME 0 ⟨9, 9⟩ rfl
     (by decide)⟩
